import Mathlib

/-!
Verification of the inference service `src/inference/app/server.py`:
checkpoint normalization (`load_model`), thresholded top-k prediction
(`predict`), and best-effort persistence (`_save_predictions_to_db`).

Python strings are modelled as `List Char`, Python dicts as ordered
association lists with unique keys, and the deserialized checkpoint blob
(`torch.load` result) as the inductive `PyVal`.  Fallible Python code is
modelled with `Except String`.
-/

namespace Server

/-- A Python string (used for checkpoint keys). -/
abbrev Key := List Char

/-- A deserialized Python value as returned by `torch.load`:
a tensor (opaque, identified by a tag), a dict, or anything else
(`None`, lists, scalars, ...). -/
inductive PyVal where
  | tensor (id : Nat)
  | dict (entries : List (Key × PyVal))
  | other

/-- Python truthiness of an optional value (`None` and `{}` are falsy);
tensors and other objects are treated as truthy here (the only values the
server's `or`-chain actually meets are dicts and `None`). -/
def pyTruthy : Option PyVal → Bool
  | Option.none => false
  | some (PyVal.dict es) => !es.isEmpty
  | some _ => true

/-- Python `a or b` on values that may be `None`: the first operand if it
is truthy, otherwise the second operand (even when the second is falsy). -/
def pyOr (a b : Option PyVal) : Option PyVal :=
  if pyTruthy a then a else b

/-- The wrapper keys probed by `load_model`
(`["state_dict", "model_state", "model_state_dict"]`). -/
def wrapperKeys : List Key :=
  ["state_dict".toList, "model_state".toList, "model_state_dict".toList]

/-- Lines 122-125 of `server.py`: if the blob is a dict containing one of
the wrapper keys, take `state.get("state_dict") or state.get("model_state")
or state.get("model_state_dict")`; else the dict itself; a non-dict blob
gives `None`. -/
def extract_state_dict (state : PyVal) : Option PyVal :=
  match state with
  | PyVal.dict es =>
      if wrapperKeys.any (fun k => (es.lookup k).isSome) then
        pyOr (es.lookup "state_dict".toList)
          (pyOr (es.lookup "model_state".toList) (es.lookup "model_state_dict".toList))
      else some (PyVal.dict es)
  | _ => Option.none

/-- Lines 133-137 of `server.py`: strip a leading `module.`, then test the
result for a leading `model.` and strip it too (two independent `if`s). -/
def cleanKey (key : Key) : Key :=
  let k1 := if "module.".toList.isPrefixOf key then key.drop "module.".toList.length else key
  if "model.".toList.isPrefixOf k1 then k1.drop "model.".toList.length else k1

/-- Python dict assignment `d[k] = v`: update in place if the key exists
(keeping its position), otherwise append. -/
def dictInsert (d : List (Key × PyVal)) (k : Key) (v : PyVal) : List (Key × PyVal) :=
  if d.any (fun kv => kv.1 == k) then
    d.map (fun kv => if kv.1 == k then (k, v) else kv)
  else d ++ [(k, v)]

/-- Lines 131-138 of `server.py`: build `cleaned_state_dict` by inserting
each entry under its cleaned key. -/
def cleanStateDict (sd : List (Key × PyVal)) : List (Key × PyVal) :=
  sd.foldl (fun acc kv => dictInsert acc (cleanKey kv.1) kv.2) []

/-- Line 142 of `server.py`: keep only keys present in the model. -/
def filterStateDict (modelKeys : List Key) (cleaned : List (Key × PyVal)) :
    List (Key × PyVal) :=
  cleaned.filter (fun kv => kv.1 ∈ modelKeys)

/-- How the backbone weights of the returned model were initialized:
from scratch (random init, then checkpoint load) or from the ImageNet
fallback. -/
inductive BackboneInit where
  | scratch
  | imagenet
deriving DecidableEq

/-- The model handle returned by `load_model`: backbone initialization,
output-layer size (`model.fc = Linear(in_features, num_classes)`), the
parameters actually overridden from the checkpoint
(`load_state_dict(filtered_state_dict, strict=False)`), and eval mode. -/
structure Model where
  backbone : BackboneInit
  fcOutFeatures : Nat
  loadedParams : List (Key × PyVal)
  evalMode : Bool

/-- Lines 93-153 of `server.py`.  `loadResult` is the outcome of
`torch.load(MODEL_PATH, weights_only=True)`; on failure the except-branch
returns the ImageNet-initialized fallback.  A `None` extraction raises
`RuntimeError`; a non-dict wrapper value raises on `.items()`. -/
def load_model (numClasses : Nat) (modelKeys : List Key)
    (loadResult : Except String PyVal) : Except String Model :=
  match loadResult with
  | Except.error _ =>
      Except.ok ⟨BackboneInit.imagenet, numClasses, [], true⟩
  | Except.ok state =>
      match extract_state_dict state with
      | Option.none => Except.error "Checkpoint does not contain a valid state_dict"
      | some (PyVal.dict sd) =>
          Except.ok ⟨BackboneInit.scratch, numClasses,
            filterStateDict modelKeys (cleanStateDict sd), true⟩
      | some _ => Except.error "AttributeError: object has no attribute items"

/-! ### Prediction engine (lines 175-187 of `server.py`) -/

/-- `round(x, 3)` in Python: round to the nearest multiple of `1/1000`,
ties to the even multiple (IEEE round-half-even, exact on rationals). -/
def roundHalfEven (q : ℚ) : ℤ :=
  if Int.fract q < 1 / 2 then ⌊q⌋
  else if 1 / 2 < Int.fract q then ⌊q⌋ + 1
  else if ⌊q⌋ % 2 = 0 then ⌊q⌋ else ⌊q⌋ + 1

/-- `round(conf, 3)` from line 187 of `server.py`. -/
def round3 (q : ℚ) : ℚ :=
  (roundHalfEven (q * 1000) : ℚ) / 1000

/-- The selection order of `torch.topk(probs, k=3)` with `sorted=True`:
larger probability first, ties broken by the lower class index. -/
def topkLe (p q : Nat × ℚ) : Prop :=
  q.2 < p.2 ∨ (p.2 = q.2 ∧ p.1 ≤ q.1)

instance : DecidableRel topkLe := fun p q =>
  inferInstanceAs (Decidable (q.2 < p.2 ∨ (p.2 = q.2 ∧ p.1 ≤ q.1)))

/-- `torch.topk(probs, k=3)` (line 178 of `server.py`): the class
probabilities paired with their indices, in descending probability order
(ties by lower index), truncated to the three largest. -/
def topk3 (probs : List ℚ) : List (Nat × ℚ) :=
  (List.insertionSort topkLe probs.enum).take 3

/-- One element of the `results` list (line 187): `{"label": ...,
"confidence": round(conf, 3)}`. -/
structure Entry where
  label : String
  confidence : ℚ
deriving DecidableEq

/-- `LABELS.get(str(i), f"class_<i>")` from line 184 of `server.py`. -/
def labelFor (labels : List (String × String)) (i : Nat) : String :=
  (labels.lookup (toString i)).getD ("class_" ++ toString i)

/-- Lines 182-187 of `server.py`: iterate over the top-k pairs in order,
keep those with `conf >= SCORE_THRESHOLD`, and emit label/rounded
confidence entries. -/
def predictResults (labels : List (String × String)) (probs : List ℚ)
    (threshold : ℚ) : List Entry :=
  ((topk3 probs).filter (fun p => threshold ≤ p.2)).map
    (fun p => ⟨labelFor labels p.1, round3 p.2⟩)

/-! ### Result store (lines 19-52 of `server.py`) -/

/-- A row of the `predictions` table (line 42-45 of `server.py`). -/
structure Record where
  source : Option String
  image_width : Nat
  image_height : Nat
  predictions : List Entry
deriving DecidableEq

/-- Observable store state: whether `init_db_pool` succeeded (decided once
at startup), how many pool connections are currently checked out, and the
committed rows. -/
structure DbState where
  poolAvailable : Bool
  checkedOut : Nat
  records : List Record
deriving DecidableEq

/-- Which of the fallible store operations raise during one write attempt:
`getconn` (pool exhausted), `cursor.execute`, `conn.commit`. -/
structure SaveOracle where
  getconnFails : Bool
  executeFails : Bool
  commitFails : Bool
deriving DecidableEq

/-- Lines 34-52 of `server.py`.  `try: conn = getconn(); execute; commit;
close` / `except: log` / `finally: if conn: putconn(conn)`.  If `getconn`
itself raises, `conn` is still `None` and nothing is released; once a
connection is acquired, the `finally` block releases it on every path. -/
def _save_predictions_to_db (o : SaveOracle) (rec : Record) (s : DbState) : DbState :=
  if s.poolAvailable = false then s
  else if o.getconnFails then s
  else
    let s1 : DbState := { s with checkedOut := s.checkedOut + 1 }
    if o.executeFails then { s1 with checkedOut := s1.checkedOut - 1 }
    else if o.commitFails then { s1 with checkedOut := s1.checkedOut - 1 }
    else { s1 with checkedOut := s1.checkedOut - 1, records := s1.records ++ [rec] }

/-! ### HTTP surface (lines 166-202 of `server.py`) -/

/-- The JSON response of `/predict`: `200 {filename, width, height,
predictions}` on success, `500 {"error": str(e)}` on any caught
exception. -/
inductive Response where
  | success (filename : String) (width height : Nat) (predictions : List Entry)
  | failure (error : String)
deriving DecidableEq

/-- The HTTP status code of a response. -/
def Response.status : Response → Nat
  | Response.success _ _ _ _ => 200
  | Response.failure _ => 500

/-- Lines 166-202 of `server.py`.  `decodeRes` is the outcome of reading
and decoding the upload (giving the original width and height);
`inferRes` the outcome of preprocessing plus the forward pass (giving the
softmax probability vector).  The first exception is caught by the
`except` block and returned as a 500; on success the store write runs
before the 200 response is built. -/
def predictEndpoint (filename : String) (decodeRes : Except String (Nat × Nat))
    (inferRes : Except String (List ℚ)) (labels : List (String × String))
    (threshold : ℚ) (o : SaveOracle) (s : DbState) : Response × DbState :=
  match decodeRes with
  | Except.error e => (Response.failure e, s)
  | Except.ok (w, h) =>
      match inferRes with
      | Except.error e => (Response.failure e, s)
      | Except.ok probs =>
          let results := predictResults labels probs threshold
          let s2 := _save_predictions_to_db o ⟨some filename, w, h, results⟩ s
          (Response.success filename w h results, s2)

/-- `isinstance(state, dict)` from line 122/125 of `server.py`. -/
def PyVal.isDict : PyVal → Bool
  | PyVal.dict _ => true
  | _ => false

/-- Build a rational directly from a numerator and a denominator already
in lowest terms.  `Rat` arithmetic is `irreducible`, so concrete rational
inputs for kernel-checked witnesses are written with `mkQ` instead of
`/`. -/
def mkQ (n : Int) (d : Nat) : ℚ :=
  if h : d ≠ 0 ∧ n.natAbs.gcd d = 1 then ⟨n, d, h.1, h.2⟩ else 0

instance : IsTrans (Nat × ℚ) topkLe where
  trans a b c hab hbc := by
    rcases hab with h1 | ⟨h1e, h1i⟩
    · rcases hbc with h2 | ⟨h2e, h2i⟩
      · exact Or.inl (h2.trans h1)
      · exact Or.inl (h2e ▸ h1)
    · rcases hbc with h2 | ⟨h2e, h2i⟩
      · exact Or.inl (h1e ▸ h2)
      · exact Or.inr ⟨h1e.trans h2e, h1i.trans h2i⟩

instance : IsTotal (Nat × ℚ) topkLe where
  total a b := by
    rcases lt_trichotomy a.2 b.2 with h | h | h
    · exact Or.inr (Or.inl h)
    · rcases Nat.le_total a.1 b.1 with hi | hi
      · exact Or.inl (Or.inr ⟨h, hi⟩)
      · exact Or.inr (Or.inr ⟨h.symm, hi⟩)
    · exact Or.inl (Or.inl h)

/-! ### Helper lemmas on prefix stripping -/

theorem isPrefixOf_append (p x : List Char) : p.isPrefixOf (p ++ x) = true := by
  rw [List.isPrefixOf_iff_prefix]
  exact List.prefix_append p x

theorem module_not_prefixOf_model (s : List Char) :
    "module.".toList.isPrefixOf ("model.".toList ++ s) = false := rfl

theorem module_toList_eq : "module.".toList = ['m', 'o', 'd', 'u', 'l', 'e', '.'] := rfl

theorem model_toList_eq : "model.".toList = ['m', 'o', 'd', 'e', 'l', '.'] := rfl

theorem cleanKey_double (s : List Char) :
    cleanKey ("module.".toList ++ ("model.".toList ++ s)) = s := by
  simp [cleanKey, isPrefixOf_append, List.drop_left]

theorem cleanKey_model (s : List Char) :
    cleanKey ("model.".toList ++ s) = s := by
  simp [cleanKey, module_not_prefixOf_model, isPrefixOf_append, List.drop_left]

/-! ### Claim theorems -/

/-- C1, counterexample: the two prefix-stripping `if`s are sequential, not
exclusive, so the key `module.model.fc.weight` is double-stripped to
`fc.weight`, not single-stripped to `model.fc.weight` as the claim
states. -/
theorem c1_counterexample :
    cleanKey "module.model.fc.weight".toList = "fc.weight".toList ∧
    cleanKey "module.model.fc.weight".toList ≠ "model.fc.weight".toList := by
  exact ⟨rfl, by decide⟩

/-- C1 (amended): the normalizer strips a leading `module.` first and then
tests the already-stripped key for a leading `model.`; each prefix is
applied at most once, but both can apply in sequence, so a
`module.model.`-prefixed key is double-stripped; keys with a single
recognized prefix are single-stripped and unprefixed keys are
unchanged. -/
theorem c1_prefix_strip (s : List Char) :
    cleanKey ("module.".toList ++ ("model.".toList ++ s)) = s
  ∧ cleanKey ("model.".toList ++ s) = s
  ∧ (¬ ("model.".toList <+: s) → cleanKey ("module.".toList ++ s) = s)
  ∧ (¬ ("module.".toList <+: s) → ¬ ("model.".toList <+: s) → cleanKey s = s) := by
  refine ⟨cleanKey_double s, cleanKey_model s, ?_, ?_⟩
  · intro h
    rw [model_toList_eq] at h
    simp [cleanKey, isPrefixOf_append, List.drop_left, h]
  · intro h1 h2
    rw [module_toList_eq] at h1
    rw [model_toList_eq] at h2
    simp [cleanKey, h1, h2]

/-- C1 witness: the amended theorem at `s = "fc.weight"`. -/
theorem c1_prefix_strip_witness :
    cleanKey ("module.".toList ++ ("model.".toList ++ "fc.weight".toList)) = "fc.weight".toList
  ∧ cleanKey ("module.".toList ++ "fc.weight".toList) = "fc.weight".toList
  ∧ cleanKey "fc.weight".toList = "fc.weight".toList := by
  obtain ⟨h1, _, h3, h4⟩ := c1_prefix_strip "fc.weight".toList
  exact ⟨h1, h3 (by decide), h4 (by decide) (by decide)⟩

/-- C2: when `torch.load` fails for any reason, `load_model` does not
raise: it returns the model built from the ImageNet-pretrained fallback
backbone with a fresh output layer sized to the class count and no
checkpoint parameters loaded. -/
theorem c2_fallback_on_load_error (numClasses : Nat) (modelKeys : List Key) (msg : String) :
    load_model numClasses modelKeys (Except.error msg) =
      Except.ok ⟨BackboneInit.imagenet, numClasses, [], true⟩ := rfl

/-- C3: if the deserialized blob is not a dict at all, `load_model`
raises (`RuntimeError("Checkpoint does not contain a valid state_dict")`),
so the module-level `model = load_model()` call aborts startup. -/
theorem c3_unrecognized_blob_raises (numClasses : Nat) (modelKeys : List Key)
    (state : PyVal) (h : state.isDict = false) :
    load_model numClasses modelKeys (Except.ok state) =
      Except.error "Checkpoint does not contain a valid state_dict" := by
  cases state with
  | dict es => simp [PyVal.isDict] at h
  | tensor id => rfl
  | other => rfl

/-- C3 witness: a tensor blob is rejected. -/
theorem c3_unrecognized_blob_raises_witness :
    load_model 3 [] (Except.ok (PyVal.tensor 0)) =
      Except.error "Checkpoint does not contain a valid state_dict" :=
  c3_unrecognized_blob_raises 3 [] (PyVal.tensor 0) rfl

/-- C5, counterexample: with the same (empty) nested mapping the three
wrapper keys are NOT treated identically: `{"state_dict": \x7b\x7d}` makes the
`or`-chain end in `None` (the empty dict is falsy) so `load_model`
raises, while `{"model_state_dict": \x7b\x7d}` returns the empty dict itself
because the chain yields its last operand regardless of truthiness. -/
theorem c5_counterexample :
    extract_state_dict (PyVal.dict [("state_dict".toList, PyVal.dict [])]) = Option.none
  ∧ extract_state_dict (PyVal.dict [("model_state_dict".toList, PyVal.dict [])]) =
      some (PyVal.dict [])
  ∧ (Option.none : Option PyVal) ≠ some (PyVal.dict []) :=
  ⟨rfl, rfl, fun h => Option.noConfusion h⟩

/-- C5 (amended): for every NON-EMPTY nested mapping, the normalizer
extracts the nested mapping identically regardless of which of the three
wrapper keys is used; for the empty nested mapping the wrappers differ
(the `model_state_dict` wrapper proceeds where the other two raise). -/
theorem c5_wrapper_extraction (d : List (Key × PyVal)) (hd : d ≠ []) :
    extract_state_dict (PyVal.dict [("state_dict".toList, PyVal.dict d)]) = some (PyVal.dict d)
  ∧ extract_state_dict (PyVal.dict [("model_state".toList, PyVal.dict d)]) = some (PyVal.dict d)
  ∧ extract_state_dict (PyVal.dict [("model_state_dict".toList, PyVal.dict d)]) =
      some (PyVal.dict d) := by
  match d with
  | [] => exact absurd rfl hd
  | kv :: tl => exact ⟨rfl, rfl, rfl⟩

/-- C5 witness: the amended theorem at a one-entry state dict. -/
theorem c5_wrapper_extraction_witness :
    extract_state_dict
        (PyVal.dict [("state_dict".toList, PyVal.dict [("fc.weight".toList, PyVal.tensor 0)])]) =
      some (PyVal.dict [("fc.weight".toList, PyVal.tensor 0)])
  ∧ extract_state_dict
        (PyVal.dict [("model_state".toList, PyVal.dict [("fc.weight".toList, PyVal.tensor 0)])]) =
      some (PyVal.dict [("fc.weight".toList, PyVal.tensor 0)]) := by
  obtain ⟨h1, h2, _⟩ :=
    c5_wrapper_extraction [("fc.weight".toList, PyVal.tensor 0)] (fun h => List.noConfusion h)
  exact ⟨h1, h2⟩

/-- C6: every key in the mapping actually loaded into the model is a
parameter name of the target architecture, and a flat checkpoint dict
(no wrapper keys) never makes `load_model` raise, however many unknown
keys it contains — they are silently filtered out. -/
theorem c6_loaded_keys_valid (numClasses : Nat) (modelKeys : List Key)
    (r : Except String PyVal) (m : Model)
    (hm : load_model numClasses modelKeys r = Except.ok m) :
    (∀ kv ∈ m.loadedParams, kv.1 ∈ modelKeys)
  ∧ ∀ es : List (Key × PyVal),
      (wrapperKeys.all fun k => (es.lookup k).isNone) = true →
      ∃ m2 : Model, load_model numClasses modelKeys (Except.ok (PyVal.dict es)) = Except.ok m2 := by
  constructor
  · intro kv hkv
    cases r with
    | error e =>
        simp only [load_model, Except.ok.injEq] at hm
        rw [← hm] at hkv
        exact absurd hkv (by simp)
    | ok state =>
        cases hstate : extract_state_dict state with
        | none => simp [load_model, hstate] at hm
        | some v =>
            cases v with
            | tensor id => simp [load_model, hstate] at hm
            | other => simp [load_model, hstate] at hm
            | dict sd =>
                simp only [load_model, hstate, Except.ok.injEq] at hm
                rw [← hm] at hkv
                have hf := List.mem_filter.mp hkv
                exact of_decide_eq_true hf.2
  · intro es hes
    have hna : (wrapperKeys.any fun k => (es.lookup k).isSome) = false := by
      rw [List.any_eq_false]
      intro k hk
      have := List.all_eq_true.mp hes k hk
      simp [Option.isNone_iff_eq_none.mp this]
    refine ⟨⟨BackboneInit.scratch, numClasses,
      filterStateDict modelKeys (cleanStateDict es), true⟩, ?_⟩
    simp [load_model, extract_state_dict, hna]

/-- C6 witness: a flat checkpoint with one matching key and one foreign
key loads the matching key only. -/
theorem c6_loaded_keys_valid_witness :
    load_model 2 ["fc.weight".toList]
        (Except.ok (PyVal.dict
          [("fc.weight".toList, PyVal.tensor 0), ("backbone.conv1".toList, PyVal.tensor 1)])) =
      Except.ok ⟨BackboneInit.scratch, 2, [("fc.weight".toList, PyVal.tensor 0)], true⟩
  ∧ ∀ kv ∈ [("fc.weight".toList, PyVal.tensor 0)], kv.1 ∈ ["fc.weight".toList] := by
  have h : load_model 2 ["fc.weight".toList]
      (Except.ok (PyVal.dict
        [("fc.weight".toList, PyVal.tensor 0), ("backbone.conv1".toList, PyVal.tensor 1)])) =
      Except.ok ⟨BackboneInit.scratch, 2, [("fc.weight".toList, PyVal.tensor 0)], true⟩ := rfl
  exact ⟨h, (c6_loaded_keys_valid 2 ["fc.weight".toList] _ _ h).1⟩

/-- C10, counterexample: a checkpoint `{"model_state_dict": \x7b\x7d}` (the
recognized wrapper key holding an empty mapping) does NOT make
`load_model` raise: the `or`-chain returns its last operand even when it
is falsy, so the empty dict survives the `is None` test and the load
proceeds fully default-initialized. -/
theorem c10_counterexample :
    load_model 3 [] (Except.ok (PyVal.dict [("model_state_dict".toList, PyVal.dict [])])) =
      Except.ok ⟨BackboneInit.scratch, 3, [], true⟩
  ∧ (load_model 3 []
        (Except.ok (PyVal.dict [("model_state_dict".toList, PyVal.dict [])]))).toOption.isSome =
      true :=
  ⟨rfl, rfl⟩

/-- C10 (amended): a wrapper whose only recognized key holds an empty
mapping makes `load_model` raise when that key is `state_dict` or
`model_state` (the falsy empty dict is skipped and the chain ends in
`None`), but when the key is `model_state_dict` — the last operand of the
`or`-chain — the empty dict itself is returned and `load_model` proceeds
with a default-initialized load instead of raising. -/
theorem c10_empty_wrapper_cases :
    load_model 3 [] (Except.ok (PyVal.dict [("state_dict".toList, PyVal.dict [])])) =
      Except.error "Checkpoint does not contain a valid state_dict"
  ∧ load_model 3 [] (Except.ok (PyVal.dict [("model_state".toList, PyVal.dict [])])) =
      Except.error "Checkpoint does not contain a valid state_dict"
  ∧ load_model 3 [] (Except.ok (PyVal.dict [("model_state_dict".toList, PyVal.dict [])])) =
      Except.ok ⟨BackboneInit.scratch, 3, [], true⟩ :=
  ⟨rfl, rfl, rfl⟩

/-! ### Rounding lemmas -/

theorem roundHalfEven_le_add_half (q : ℚ) : (roundHalfEven q : ℚ) ≤ q + 1 / 2 := by
  have h0 : q - (⌊q⌋ : ℚ) = Int.fract q := Int.self_sub_floor q
  have h1 : 0 ≤ Int.fract q := Int.fract_nonneg q
  have h2 : Int.fract q < 1 := Int.fract_lt_one q
  unfold roundHalfEven
  split_ifs with ha hb hc
  · linarith
  · push_cast
    linarith
  · linarith
  · have ha2 : (1 : ℚ) / 2 ≤ Int.fract q := not_lt.mp ha
    push_cast
    linarith

theorem sub_half_le_roundHalfEven (q : ℚ) : q - 1 / 2 ≤ (roundHalfEven q : ℚ) := by
  have h0 : q - (⌊q⌋ : ℚ) = Int.fract q := Int.self_sub_floor q
  have h1 : 0 ≤ Int.fract q := Int.fract_nonneg q
  have h2 : Int.fract q < 1 := Int.fract_lt_one q
  unfold roundHalfEven
  split_ifs with ha hb hc
  · linarith
  · push_cast
    linarith
  · have hb2 : Int.fract q ≤ 1 / 2 := not_lt.mp hb
    linarith
  · push_cast
    linarith

theorem roundHalfEven_mono {q r : ℚ} (h : q ≤ r) : roundHalfEven q ≤ roundHalfEven r := by
  by_contra hc
  rw [not_le] at hc
  have h1 : (roundHalfEven r : ℚ) + 1 ≤ (roundHalfEven q : ℚ) := by
    exact_mod_cast Int.add_one_le_iff.mpr hc
  have h2 := roundHalfEven_le_add_half q
  have h3 := sub_half_le_roundHalfEven r
  have hqr : q = r := le_antisymm h (by linarith)
  rw [hqr] at hc
  exact lt_irrefl _ hc

theorem round3_mono {q r : ℚ} (h : q ≤ r) : round3 q ≤ round3 r := by
  unfold round3
  have hm : q * 1000 ≤ r * 1000 := by linarith
  have hc : (roundHalfEven (q * 1000) : ℚ) ≤ (roundHalfEven (r * 1000) : ℚ) := by
    exact_mod_cast roundHalfEven_mono hm
  linarith

/-- A rational that is an integer multiple of `1/1000` is a fixed point
of `round(_, 3)`. -/
theorem round3_eq_self (q : ℚ) (n : ℤ) (hq : q * 1000 = (n : ℚ)) : round3 q = q := by
  unfold round3 roundHalfEven
  rw [hq, Int.fract_intCast, Int.floor_intCast]
  norm_num
  linarith

theorem mkQ_eq (n : Int) (d : Nat) (h1 : d ≠ 0) (h2 : n.natAbs.gcd d = 1) :
    mkQ n d = (n : ℚ) / (d : ℚ) := by
  rw [mkQ, dif_pos ⟨h1, h2⟩, Rat.mk'_eq_divInt, Rat.divInt_eq_div]
  norm_num

theorem round3_quarter : round3 (mkQ 1 4) = mkQ 1 4 := by
  refine round3_eq_self _ 250 ?_
  rw [mkQ_eq 1 4 (by norm_num) (by norm_num)]
  norm_num

/-! ### Top-k ordering lemmas -/

theorem topk3_sorted (probs : List ℚ) : (topk3 probs).Pairwise topkLe :=
  List.Pairwise.sublist (List.take_sublist 3 _) (List.sorted_insertionSort topkLe probs.enum)

theorem topk3_ne_fst (probs : List ℚ) :
    (topk3 probs).Pairwise (fun p q => p.1 ≠ q.1) := by
  have hperm : List.Perm (List.insertionSort topkLe probs.enum) probs.enum :=
    List.perm_insertionSort topkLe probs.enum
  have hnd : (probs.enum.map Prod.fst).Nodup := List.nodup_enum_map_fst probs
  have hnd2 : ((List.insertionSort topkLe probs.enum).map Prod.fst).Nodup :=
    ((hperm.map Prod.fst).nodup_iff).mpr hnd
  have hp : (List.insertionSort topkLe probs.enum).Pairwise (fun p q => p.1 ≠ q.1) :=
    List.pairwise_map.mp hnd2
  exact List.Pairwise.sublist (List.take_sublist 3 _) hp

/-- The selection is in strictly descending probability order, with exact
ties broken by the strictly smaller class index first. -/
theorem topk3_strict_sorted (probs : List ℚ) :
    (topk3 probs).Pairwise (fun p q => q.2 < p.2 ∨ (p.2 = q.2 ∧ p.1 < q.1)) := by
  refine ((topk3_sorted probs).and (topk3_ne_fst probs)).imp ?_
  rintro a b ⟨hle | ⟨he, hi⟩, hne⟩
  · exact Or.inl hle
  · exact Or.inr ⟨he, lt_of_le_of_ne hi hne⟩

theorem topk3_length_le (probs : List ℚ) : (topk3 probs).length ≤ 3 := by
  unfold topk3
  rw [List.length_take]
  exact min_le_left 3 _

theorem topk3_subset_enum (probs : List ℚ) : ∀ p ∈ topk3 probs, p ∈ probs.enum := by
  intro p hp
  have h1 : p ∈ List.insertionSort topkLe probs.enum :=
    (List.take_sublist 3 _).subset hp
  exact (List.perm_insertionSort topkLe probs.enum).subset h1

/-! ### Claim theorems for the prediction engine -/

/-- C4: the prediction list has at most K = 3 entries; the entries are in
descending-confidence order; the underlying selection is strictly
descending with probability ties broken by the lower class index; every
entry's confidence is at least the configured threshold (which, like the
default `0.25`, is representable at 3 decimals); and when no class
reaches the threshold the result is the empty list, not an error. -/
theorem c4_prediction_engine (labels : List (String × String)) (probs : List ℚ)
    (t : ℚ) (hT : round3 t = t) :
    (predictResults labels probs t).length ≤ 3
  ∧ (predictResults labels probs t).Pairwise (fun a b => b.confidence ≤ a.confidence)
  ∧ (∀ e ∈ predictResults labels probs t, t ≤ e.confidence)
  ∧ (topk3 probs).Pairwise (fun p q => q.2 < p.2 ∨ (p.2 = q.2 ∧ p.1 < q.1))
  ∧ ((∀ p ∈ probs.enum, p.2 < t) → predictResults labels probs t = []) := by
  refine ⟨?_, ?_, ?_, topk3_strict_sorted probs, ?_⟩
  · calc (predictResults labels probs t).length
        = ((topk3 probs).filter fun p => t ≤ p.2).length := List.length_map _ _
      _ ≤ (topk3 probs).length := List.length_filter_le _ _
      _ ≤ 3 := topk3_length_le probs
  · refine List.Pairwise.map _ ?_ ((topk3_sorted probs).filter _)
    rintro a b (hlt | ⟨he, _⟩)
    · exact round3_mono hlt.le
    · exact le_of_eq (congrArg round3 he.symm)
  · intro e he
    obtain ⟨p, hpf, rfl⟩ := List.mem_map.mp he
    have hple := of_decide_eq_true (List.mem_filter.mp hpf).2
    calc t = round3 t := hT.symm
      _ ≤ round3 p.2 := round3_mono hple
  · intro hall
    have hfe : ((topk3 probs).filter fun p => t ≤ p.2) = [] := by
      rw [List.filter_eq_nil_iff]
      intro p hp
      have := hall p (topk3_subset_enum probs p hp)
      simp only [decide_eq_true_eq, not_le]
      exact this
    unfold predictResults
    rw [hfe]
    rfl

/-- C4 witness: the engine at the spec's scenario
(`probs = [0.7, 0.25, 0.05]`, threshold `0.25`). -/
theorem c4_prediction_engine_witness :
    round3 (mkQ 1 4) = mkQ 1 4
  ∧ (predictResults [("0", "cat"), ("1", "dog")] [mkQ 7 10, mkQ 1 4, mkQ 1 20]
      (mkQ 1 4)).length ≤ 3 :=
  ⟨round3_quarter,
    (c4_prediction_engine [("0", "cat"), ("1", "dog")] [mkQ 7 10, mkQ 1 4, mkQ 1 20]
      (mkQ 1 4) round3_quarter).1⟩

/-- C9: the threshold comparison is inclusive — a selected class whose
probability equals the threshold exactly is included in the result. -/
theorem c9_inclusive_threshold (labels : List (String × String)) (probs : List ℚ)
    (t : ℚ) (i : Nat) (h : (i, t) ∈ topk3 probs) :
    Entry.mk (labelFor labels i) (round3 t) ∈ predictResults labels probs t := by
  unfold predictResults
  refine List.mem_map.mpr ⟨(i, t), List.mem_filter.mpr ⟨h, ?_⟩, rfl⟩
  exact decide_eq_true le_rfl

/-- C9 witness: probability exactly `0.25` with threshold `0.25` (class
index 1, label "dog") is included. -/
theorem c9_inclusive_threshold_witness :
    (1, mkQ 1 4) ∈ topk3 [mkQ 7 10, mkQ 1 4, mkQ 1 20]
  ∧ Entry.mk (labelFor [("0", "cat"), ("1", "dog")] 1) (round3 (mkQ 1 4)) ∈
      predictResults [("0", "cat"), ("1", "dog")] [mkQ 7 10, mkQ 1 4, mkQ 1 20] (mkQ 1 4) :=
  ⟨by decide, c9_inclusive_threshold [("0", "cat"), ("1", "dog")]
    [mkQ 7 10, mkQ 1 4, mkQ 1 20] (mkQ 1 4) 1 (by decide)⟩

/-! ### Claim theorems for the store and the HTTP surface -/

/-- C7: the store write never fails the request (a successful prediction
returns 200 whatever the store does); every connection actually acquired
is released again on success and on every failure path, so the
checked-out count is unchanged; and when the pool failed to initialize at
startup the write is skipped without touching any state. -/
theorem c7_store_best_effort (o : SaveOracle) (rec : Record) (s : DbState) :
    (_save_predictions_to_db o rec s).checkedOut = s.checkedOut
  ∧ (_save_predictions_to_db o rec s).poolAvailable = s.poolAvailable
  ∧ (s.poolAvailable = false → _save_predictions_to_db o rec s = s)
  ∧ ∀ (fn : String) (w h : Nat) (probs : List ℚ) (labels : List (String × String)) (t : ℚ),
      (predictEndpoint fn (Except.ok (w, h)) (Except.ok probs) labels t o s).1.status = 200 := by
  obtain ⟨g, e, c⟩ := o
  obtain ⟨pa, co, rs⟩ := s
  refine ⟨?_, ?_, ?_, fun fn w h probs labels t => rfl⟩
  · cases pa <;> cases g <;> cases e <;> cases c <;>
      simp [_save_predictions_to_db]
  · cases pa <;> cases g <;> cases e <;> cases c <;>
      simp [_save_predictions_to_db]
  · intro hp
    have hpa : pa = false := hp
    subst hpa
    rfl

/-- C7 witness: with an unavailable pool the write is the identity, and
the checked-out count is preserved on an execute failure. -/
theorem c7_store_best_effort_witness :
    _save_predictions_to_db ⟨false, true, false⟩ ⟨none, 1, 1, []⟩ ⟨false, 0, []⟩ = ⟨false, 0, []⟩
  ∧ (_save_predictions_to_db ⟨false, true, false⟩ ⟨none, 1, 1, []⟩ ⟨true, 2, []⟩).checkedOut = 2 :=
  ⟨(c7_store_best_effort ⟨false, true, false⟩ ⟨none, 1, 1, []⟩ ⟨false, 0, []⟩).2.2.1 rfl,
    (c7_store_best_effort ⟨false, true, false⟩ ⟨none, 1, 1, []⟩ ⟨true, 2, []⟩).1⟩

/-- C8: when decoding the upload fails (or any error occurs during
preprocessing/inference), the endpoint returns status 500 with the
exception's non-empty message as the error body, and the store state —
in particular its record list — is untouched. -/
theorem c8_error_response (fn : String) (labels : List (String × String)) (t : ℚ)
    (o : SaveOracle) (s : DbState) (m : String) (w h : Nat)
    (ir : Except String (List ℚ)) (hm : m ≠ "") :
    (predictEndpoint fn (Except.error m) ir labels t o s).1 = Response.failure m
  ∧ (predictEndpoint fn (Except.error m) ir labels t o s).1.status = 500
  ∧ (predictEndpoint fn (Except.error m) ir labels t o s).2 = s
  ∧ (predictEndpoint fn (Except.ok (w, h)) (Except.error m) labels t o s).1 = Response.failure m
  ∧ (predictEndpoint fn (Except.ok (w, h)) (Except.error m) labels t o s).1.status = 500
  ∧ (predictEndpoint fn (Except.ok (w, h)) (Except.error m) labels t o s).2 = s
  ∧ m ≠ "" :=
  ⟨rfl, rfl, rfl, rfl, rfl, rfl, hm⟩

/-- C8 witness: a concrete decode failure. -/
theorem c8_error_response_witness :
    (predictEndpoint "cat.jpg" (Except.error "cannot identify image file")
        (Except.ok []) [] (mkQ 1 4) ⟨false, false, false⟩ ⟨true, 0, []⟩).1 =
      Response.failure "cannot identify image file"
  ∧ (predictEndpoint "cat.jpg" (Except.error "cannot identify image file")
        (Except.ok []) [] (mkQ 1 4) ⟨false, false, false⟩ ⟨true, 0, []⟩).2 = ⟨true, 0, []⟩ :=
  ⟨(c8_error_response "cat.jpg" [] (mkQ 1 4) ⟨false, false, false⟩ ⟨true, 0, []⟩
      "cannot identify image file" 1 1 (Except.ok []) (by decide)).1,
    (c8_error_response "cat.jpg" [] (mkQ 1 4) ⟨false, false, false⟩ ⟨true, 0, []⟩
      "cannot identify image file" 1 1 (Except.ok []) (by decide)).2.2.1⟩

end Server
